import Mathlib

/-!
Shallow embedding of `src/src/App.tsx` (Shopee-Extractor).

The source is a single React component.  Its mutable state consists of six
`useState` cells (`url`, `loading`, `error`, `product`, `activeImage`,
`copied`); every handler is a straight-line sequence of state-setter calls,
so each handler is embedded as a pure function from the state record to the
next state record (plus an explicit value for any outbound effect: the
extraction request, the clipboard write, the scheduled timer).

The external pieces — the Gemini call itself, `JSON.parse`, the browser
clock — are modelled as explicit inputs: the call outcome is a `CallResult`
value, parsing is an oracle `String → Except String ProductData`, and timer
scheduling is a list of absolute deadlines.
-/

namespace ShopeeExtractor

/-- Review record, from the `Review` interface (App.tsx lines 9-13).
The JS `number` field `rating` is only carried, never computed with, so it
is embedded as `Int`. -/
structure Review where
  user : String
  rating : Int
  comment : String
deriving DecidableEq, Repr

/-- Product record, from the `ProductData` interface (App.tsx lines 15-23). -/
structure ProductData where
  name : String
  price : String
  description : String
  images : List String
  rating : Int
  sold : String
  reviews : List Review
deriving DecidableEq, Repr

/-- The six `useState` cells of the component (App.tsx lines 26-31):
`url`, `loading`, `error`, `product`, `activeImage`, `copied`.
In the spec's vocabulary: `requestUrl`, (part of) `status`, `errorMessage`,
`record`, `selectedImageIndex`, `copiedFlagActive`. -/
structure UIState where
  url : String
  loading : Bool
  error : String
  product : Option ProductData
  activeImage : Nat
  copied : Bool
deriving DecidableEq, Repr

/-- The spec's four-valued status abstraction over the component's
`loading`/`error`/`product` cells: Loading while the call is in flight,
otherwise Error when an error message is displayed, otherwise Ready when a
record is held, otherwise Idle. -/
inductive Status where
  | Idle
  | Loading
  | Error
  | Ready
deriving DecidableEq, Repr

/-- Derived status of a `UIState` (spec §3 `UIState.status`). -/
def status (s : UIState) : Status :=
  if s.loading then .Loading
  else if s.error = "" then (if s.product.isSome then .Ready else .Idle)
  else .Error

/-- The fixed configuration message shown when the API key is absent
(App.tsx line 38). -/
def missingKeyMsg : String :=
  "A chave da API do Gemini não foi configurada. Por favor, adicione a variável de ambiente GEMINI_API_KEY no Vercel."

/-- Message of the error thrown when the response carries no text payload
(App.tsx line 88). -/
def emptyResponseMsg : String := "Falha ao extrair os dados."

/-- Generic fallback message used when a caught failure has no message text
(App.tsx line 92). -/
def genericErrorMsg : String :=
  "Ocorreu um erro ao extrair os dados. Verifique a URL e tente novamente."

/-- JS `url.trim()` (App.tsx line 35), embedded structurally over the
character list: removes leading and trailing whitespace.  (Lean's own
`String.trim` is defined through well-founded recursion on byte positions
and does not evaluate inside the kernel, so the same function is written
here by dropping whitespace from both ends of the character list.) -/
def jsTrim (s : String) : String :=
  ⟨((s.data.dropWhile Char.isWhitespace).reverse.dropWhile
      Char.isWhitespace).reverse⟩

/-- Synchronous prefix of `handleExtract` (App.tsx lines 33-44): the
empty-input guard, the missing-credential guard, and the three setter calls
that enter the loading state.  `hasKey` embeds the module-level constant
`ai = apiKey ? new GoogleGenAI({apiKey}) : null` being non-null (line 6-7).
The returned `Bool` records whether the external extraction call is issued
(the `await ai.models.generateContent` on line 47 is reached). -/
def handleExtractStart (hasKey : Bool) (s : UIState) : UIState × Bool :=
  if jsTrim s.url = "" then (s, false)
  else if !hasKey then ({ s with error := missingKeyMsg }, false)
  else ({ s with loading := true, error := "", product := none }, true)

/-- Outcome of the awaited external call (App.tsx line 47): either it
resolves with a response whose `text` field may be absent, or it rejects /
throws with a message (`err.message`; an absent message is embedded as `""`,
which the `||` fallback on line 92 treats the same way). -/
inductive CallResult where
  | success (text : Option String)
  | thrown (msg : String)
deriving DecidableEq, Repr

/-- The `catch` block (App.tsx lines 90-92): sets `error` to `err.message`,
falling back to the generic message when it is empty (JS `||` on a falsy
string). -/
def catchStep (msg : String) (s : UIState) : UIState :=
  { s with error := if msg = "" then genericErrorMsg else msg }

/-- The `finally` block (App.tsx lines 93-95): `setLoading(false)`. -/
def finallyStep (s : UIState) : UIState := { s with loading := false }

/-- Completion of `handleExtract` (App.tsx lines 83-95), applied when the
awaited call settles.  `parse` is the `JSON.parse(...) as ProductData` step
(line 84), an external oracle that yields a record or throws with a message.
A resolved response whose `text` is absent or empty is falsy on line 83, so
the code throws `Error("Falha ao extrair os dados.")`, which its own `catch`
converts to the error state; a parse failure is likewise caught.  The
`finally` clause runs on every path. -/
def runCall (parse : String → Except String ProductData) (res : CallResult)
    (s : UIState) : UIState :=
  finallyStep <|
    match res with
    | .thrown msg => catchStep msg s
    | .success none => catchStep emptyResponseMsg s
    | .success (some t) =>
        if t = "" then catchStep emptyResponseMsg s
        else
          match parse t with
          | .ok data => { s with product := some data, activeImage := 0 }
          | .error m => catchStep m s

/-- The raw failure message of a failing call outcome, `none` when the
outcome succeeds (resolves with a payload the parse oracle accepts). -/
def failureMessage (parse : String → Except String ProductData)
    (res : CallResult) : Option String :=
  match res with
  | .thrown msg => some msg
  | .success none => some emptyResponseMsg
  | .success (some t) =>
      if t = "" then some emptyResponseMsg
      else
        match parse t with
        | .ok _ => none
        | .error m => some m

/-- Thumbnail click handler (App.tsx lines 186-199): the thumbnail strip is
rendered only when a product is present and `product.images.length > 1`,
and one button exists per index `idx < product.images.length`, each calling
`setActiveImage(idx)`.  Selecting an index for which no button exists is
therefore a no-op. -/
def setActiveImageClick (idx : Nat) (s : UIState) : UIState :=
  match s.product with
  | none => s
  | some p =>
      if 1 < p.images.length ∧ idx < p.images.length then
        { s with activeImage := idx }
      else s

/-- The summary text built by `copyToClipboard` (App.tsx line 100):
the template literal
`Produto: ${name}\nPreço: ${price}\n\nDescrição:\n${description}`. -/
def summaryText (p : ProductData) : String :=
  "Produto: " ++ p.name ++ "\nPreço: " ++ p.price ++ "\n\nDescrição:\n"
    ++ p.description

/-- `copyToClipboard` (App.tsx lines 98-104): guarded on a product being
present; writes the summary to the clipboard sink (returned as the second
component) and sets `copied := true`.  The scheduled 2-second reset is
modelled separately by `CopiedTimer`. -/
def copyToClipboard (s : UIState) : UIState × Option String :=
  match s.product with
  | none => (s, none)
  | some p => ({ s with copied := true }, some (summaryText p))

/-- Sample product record used to instantiate theorems at concrete states. -/
def sampleProduct : ProductData :=
  { name := "Blue Widget"
    price := "R$ 29,90"
    description := "Ótimo produto"
    images := ["img0", "img1", "img2"]
    rating := 5
    sold := "1.2k"
    reviews := [{ user := "Ana", rating := 5, comment := "Ótimo!" }] }

/-- Sample idle state holding no record. -/
def idleState : UIState :=
  { url := "https://shopee.com/item/blue-widget-i.123"
    loading := false
    error := ""
    product := none
    activeImage := 0
    copied := false }

/-- Sample ready state holding `sampleProduct`. -/
def readyState : UIState :=
  { url := "https://shopee.com/item/blue-widget-i.123"
    loading := false
    error := ""
    product := some sampleProduct
    activeImage := 0
    copied := false }

/-- Timeline model of the `copied` flag (App.tsx lines 102-103):
`setCopied(true); setTimeout(() => setCopied(false), 2000)`.  `pending`
holds the absolute deadlines of the scheduled one-shot resets; the source
stores no handle to the timer, so nothing ever cancels a pending reset. -/
structure CopiedTimer where
  copied : Bool
  pending : List Nat
deriving DecidableEq, Repr

/-- A `copyToClipboard` call at time `now` (with a product present): sets
the flag and schedules a reset for exactly `now + 2000`; every previously
scheduled reset stays pending (no `clearTimeout` in the source). -/
def copyClick (now : Nat) (s : CopiedTimer) : CopiedTimer :=
  { copied := true, pending := s.pending ++ [now + 2000] }

/-- The browser firing the pending reset with deadline `deadline`: the
callback `() => setCopied(false)` runs and the timer, being one-shot, is
removed from the pending set.  Firing a deadline that is not pending does
nothing. -/
def fireReset (deadline : Nat) (s : CopiedTimer) : CopiedTimer :=
  if deadline ∈ s.pending then
    { copied := false, pending := s.pending.erase deadline }
  else s

/-- Associativity of string concatenation, used for the substring
decompositions below. -/
theorem string_append_assoc (a b c : String) : a ++ b ++ c = a ++ (b ++ c) := by
  cases a with
  | mk l1 =>
    cases b with
    | mk l2 =>
      cases c with
      | mk l3 => exact congrArg String.mk (List.append_assoc l1 l2 l3)

/-- C1: in a configured session (the API key present, so `ai` is non-null),
`submit(url)` with a non-empty trimmed url enters the Loading status and
clears the prior record and error message (App.tsx lines 42-44). -/
theorem submit_nonempty_enters_loading (s : UIState) (h : jsTrim s.url ≠ "") :
    status (handleExtractStart true s).1 = .Loading ∧
    (handleExtractStart true s).1.product = none ∧
    (handleExtractStart true s).1.error = "" := by
  simp [handleExtractStart, h, status]

/-- Witness for C1 at a concrete ready state with a non-empty url. -/
theorem submit_nonempty_enters_loading_witness :
    status (handleExtractStart true readyState).1 = .Loading ∧
    (handleExtractStart true readyState).1.product = none ∧
    (handleExtractStart true readyState).1.error = "" :=
  submit_nonempty_enters_loading readyState (by decide)

/-- C2: when the trimmed url is empty (empty or whitespace-only input), the
guard on App.tsx line 35 returns before any setter or external call: the
whole state is unchanged and no call is issued, regardless of the key. -/
theorem submit_blank_noop (hasKey : Bool) (s : UIState) (h : jsTrim s.url = "") :
    handleExtractStart hasKey s = (s, false) := by
  simp [handleExtractStart, h]

/-- Witness for C2 at a whitespace-only url. -/
theorem submit_blank_noop_witness :
    handleExtractStart true { idleState with url := "   " }
      = ({ idleState with url := "   " }, false) :=
  submit_blank_noop true { idleState with url := "   " } (by decide)

/-- C3: with the API key absent (`ai` null) and a non-empty trimmed url,
`handleExtract` immediately sets the fixed configuration message and
returns (App.tsx lines 37-40): the status becomes Error and no external
call is issued.  `hl` is the session invariant that `loading` is false —
with no key the loading branch is unreachable, so no state of a keyless
session ever has `loading = true`. -/
theorem submit_without_key_errors (s : UIState) (h : jsTrim s.url ≠ "")
    (hl : s.loading = false) :
    (handleExtractStart false s).1 = { s with error := missingKeyMsg } ∧
    status (handleExtractStart false s).1 = .Error ∧
    (handleExtractStart false s).2 = false := by
  refine ⟨by simp [handleExtractStart, h], ?_, by simp [handleExtractStart, h]⟩
  simp [handleExtractStart, h, status, hl, missingKeyMsg]

/-- Witness for C3 at a concrete idle state. -/
theorem submit_without_key_errors_witness :
    (handleExtractStart false idleState).1
      = { idleState with error := missingKeyMsg } ∧
    status (handleExtractStart false idleState).1 = .Error ∧
    (handleExtractStart false idleState).2 = false :=
  submit_without_key_errors idleState (by decide) (by decide)

/-- C10: on the missing-credential path only the error message changes:
url, loading, record, selected image index and copied flag are all left as
they were (App.tsx lines 37-40 run only `setError` before returning), so a
record from an earlier successful extraction remains present, and no call
is issued. -/
theorem submit_without_key_changes_only_error (s : UIState)
    (h : jsTrim s.url ≠ "") :
    (handleExtractStart false s).1.product = s.product ∧
    (handleExtractStart false s).1.activeImage = s.activeImage ∧
    (handleExtractStart false s).1.copied = s.copied ∧
    (handleExtractStart false s).1.url = s.url ∧
    (handleExtractStart false s).1.loading = s.loading ∧
    (handleExtractStart false s).1.error = missingKeyMsg ∧
    (handleExtractStart false s).2 = false := by
  simp [handleExtractStart, h]

/-- Witness for C10 at a ready state: the earlier record survives. -/
theorem submit_without_key_changes_only_error_witness :
    (handleExtractStart false readyState).1.product = readyState.product ∧
    (handleExtractStart false readyState).1.activeImage
      = readyState.activeImage ∧
    (handleExtractStart false readyState).1.copied = readyState.copied ∧
    (handleExtractStart false readyState).1.url = readyState.url ∧
    (handleExtractStart false readyState).1.loading = readyState.loading ∧
    (handleExtractStart false readyState).1.error = missingKeyMsg ∧
    (handleExtractStart false readyState).2 = false :=
  submit_without_key_changes_only_error readyState (by decide)

/-- C9: `setLoading(false)` sits in the `finally` clause (App.tsx lines
93-95), so after the awaited call settles — success, empty payload, parse
failure or rejection — `loading` is false, i.e. the status is no longer
Loading. -/
theorem call_completion_clears_loading
    (parse : String → Except String ProductData) (res : CallResult)
    (s : UIState) : (runCall parse res s).loading = false := rfl

/-- C4: every failing call outcome — rejection, absent payload, unparsable
payload — is absorbed by the `catch`/`finally` blocks rather than thrown
further: the state becomes Error with the failure's message (the generic
fallback when that message is empty), loading off, and the record, cleared
when the call was issued, stays absent. -/
theorem call_failure_sets_error
    (parse : String → Except String ProductData) (res : CallResult)
    (s : UIState) (m : String)
    (hf : failureMessage parse res = some m) (hp : s.product = none) :
    runCall parse res s
      = { s with error := if m = "" then genericErrorMsg else m,
                 loading := false } ∧
    (runCall parse res s).product = none ∧
    status (runCall parse res s) = .Error := by
  have hrun : runCall parse res s
      = { s with error := if m = "" then genericErrorMsg else m,
                 loading := false } := by
    cases res with
    | thrown msg =>
        simp only [failureMessage, Option.some.injEq] at hf
        subst hf; rfl
    | success t =>
        cases t with
        | none =>
            simp only [failureMessage, Option.some.injEq] at hf
            subst hf; rfl
        | some txt =>
            by_cases ht : txt = ""
            · subst ht
              simp [failureMessage] at hf
              subst hf
              rfl
            · cases hpt : parse txt with
              | ok d => simp [failureMessage, ht, hpt] at hf
              | error msg =>
                  simp [failureMessage, ht, hpt] at hf
                  subst hf
                  simp [runCall, catchStep, finallyStep, ht, hpt]
  refine ⟨hrun, ?_, ?_⟩
  · rw [hrun]; exact hp
  · rw [hrun]
    by_cases hm : m = "" <;> simp [status, hm, genericErrorMsg]

/-- Sample loading state, as produced by a submission: record and error
cleared, loading on. -/
def loadingState : UIState :=
  { url := "https://shopee.com/item/blue-widget-i.123"
    loading := true
    error := ""
    product := none
    activeImage := 0
    copied := false }

/-- Witness for C4: a rejection carrying an empty message, at a concrete
loading state; the generic fallback message is used. -/
theorem call_failure_sets_error_witness :
    runCall (fun _ => Except.error "bad") (.thrown "") loadingState
      = { loadingState with
            error := if "" = "" then genericErrorMsg else "",
            loading := false } ∧
    (runCall (fun _ => Except.error "bad") (.thrown "") loadingState).product
      = none ∧
    status (runCall (fun _ => Except.error "bad") (.thrown "") loadingState)
      = .Error :=
  call_failure_sets_error (fun _ => Except.error "bad") (.thrown "")
    loadingState "" rfl rfl

/-- C5: with a record present, a thumbnail click on index `idx` sets the
selected image index iff `idx` is a valid index of `images`; otherwise the
state is unchanged (no such thumbnail button exists).  `hinv` is the
invariant of every reachable state holding a record: the selected index is
in bounds, or is the 0 it was reset to on success (covering an empty or
singleton image list, for which no thumbnail strip is rendered at all). -/
theorem selectImage_bounds (idx : Nat) (s : UIState) (p : ProductData)
    (hp : s.product = some p)
    (hinv : s.activeImage < p.images.length ∨ s.activeImage = 0) :
    setActiveImageClick idx s
      = if idx < p.images.length then { s with activeImage := idx }
        else s := by
  have hm : setActiveImageClick idx s
      = if 1 < p.images.length ∧ idx < p.images.length then
          { s with activeImage := idx }
        else s := by
    unfold setActiveImageClick
    rw [hp]
  rw [hm]
  by_cases h1 : 1 < p.images.length
  · by_cases h2 : idx < p.images.length <;> simp [h1, h2]
  · have ha : s.activeImage = 0 := by
      rcases hinv with hlt | h0
      · omega
      · exact h0
    by_cases h2 : idx < p.images.length
    · have hidx : idx = 0 := by omega
      rw [if_pos h2, if_neg (fun hc => h1 hc.1)]
      conv_rhs => rw [hidx, ← ha]
    · simp [h1, h2]

/-- Witness for C5 at the sample ready state with in-bounds index 2. -/
theorem selectImage_bounds_witness :
    setActiveImageClick 2 readyState
      = if 2 < sampleProduct.images.length then
          { readyState with activeImage := 2 }
        else readyState :=
  selectImage_bounds 2 readyState sampleProduct rfl (Or.inr rfl)

/-- C6: with a record present, `copyToClipboard` hands the summary text to
the clipboard sink and sets the copied flag; the summary contains the
record's name and price as literal substrings. -/
theorem copySummary_contains_name_price (s : UIState) (p : ProductData)
    (hp : s.product = some p) :
    copyToClipboard s = ({ s with copied := true }, some (summaryText p)) ∧
    (∃ a b, summaryText p = a ++ p.name ++ b) ∧
    (∃ a b, summaryText p = a ++ p.price ++ b) := by
  refine ⟨by simp [copyToClipboard, hp], ?_, ?_⟩
  · refine ⟨"Produto: ",
      "\nPreço: " ++ p.price ++ "\n\nDescrição:\n" ++ p.description, ?_⟩
    simp only [summaryText, string_append_assoc]
  · refine ⟨"Produto: " ++ p.name ++ "\nPreço: ",
      "\n\nDescrição:\n" ++ p.description, ?_⟩
    simp only [summaryText, string_append_assoc]

/-- Witness for C6 at the sample ready state. -/
theorem copySummary_contains_name_price_witness :
    copyToClipboard readyState
      = ({ readyState with copied := true },
         some (summaryText sampleProduct)) ∧
    (∃ a b, summaryText sampleProduct = a ++ sampleProduct.name ++ b) ∧
    (∃ a b, summaryText sampleProduct = a ++ sampleProduct.price ++ b) :=
  copySummary_contains_name_price readyState sampleProduct rfl

/-- C7 counterexample: copy clicks at times 0 and 1000.  The source stores
no handle to its `setTimeout`, so after the second click the first click's
reset (deadline 2000) is still pending; when the browser fires it at time
2000 — before the second click's own deadline 3000 — the flag set by the
later call is cleared.  This refutes the claim that a new copy call
supersedes the pending reset. -/
theorem copied_reset_not_superseded :
    (2000 ∈ (copyClick 1000 (copyClick 0 ⟨false, []⟩)).pending) ∧
    (copyClick 1000 (copyClick 0 ⟨false, []⟩)).copied = true ∧
    (fireReset 2000 (copyClick 1000 (copyClick 0 ⟨false, []⟩))).copied
      = false ∧
    2000 < 1000 + 2000 := by decide

/-- C7 amended: each copy click sets the flag and schedules a one-shot
reset for exactly 2000 ms later; previously pending resets are NOT
cancelled — every pending reset remains scheduled and, when it fires, sets
the flag to false (and only then leaves the pending set), even when a later
copy click set the flag after it was scheduled. -/
theorem copied_reset_one_shot (now : Nat) (s : CopiedTimer) :
    (copyClick now s).copied = true ∧
    (copyClick now s).pending = s.pending ++ [now + 2000] ∧
    ∀ d, d ∈ (copyClick now s).pending →
      (fireReset d (copyClick now s)).copied = false ∧
      (fireReset d (copyClick now s)).pending
        = (copyClick now s).pending.erase d := by
  refine ⟨rfl, rfl, fun d hd => ?_⟩
  simp [fireReset, hd]

/-- Witness for the amended C7: after a single copy click at time 0, the
flag is set, and firing the pending reset with deadline 2000 clears it. -/
theorem copied_reset_one_shot_witness :
    (copyClick 0 ⟨false, []⟩).copied = true ∧
    (fireReset 2000 (copyClick 0 ⟨false, []⟩)).copied = false := by
  have h := copied_reset_one_shot 0 ⟨false, []⟩
  exact ⟨h.1, (h.2.2 2000 (by decide)).1⟩

/-- Parse oracle for the overlapping-calls scenario: two distinct valid
payloads. -/
def staleParse : String → Except String ProductData := fun t =>
  if t = "payload1" then Except.ok { sampleProduct with name := "Record One" }
  else if t = "payload2" then
    Except.ok { sampleProduct with name := "Record Two" }
  else Except.error "bad"

/-- State after: submit a first url, submit a second url while the first
call is in flight, then the second (latest) call completes successfully. -/
def afterSecondCompletion : UIState :=
  runCall staleParse (.success (some "payload2"))
    (handleExtractStart true
      { (handleExtractStart true idleState).1 with
          url := "https://shopee.com/item/second-i.456" }).1

/-- State after the stale first call's response then arrives and is
processed by the same completion code. -/
def afterStaleCompletion : UIState :=
  runCall staleParse (.success (some "payload1")) afterSecondCompletion

/-- C8: `handleExtract` (App.tsx lines 46-95) carries no generation tag and
discards nothing: in the overlapping scenario the latest call's record
(`Record Two`) is overwritten by the stale first call's record
(`Record One`) when the stale response arrives last. -/
theorem stale_response_overwrites_newer :
    afterSecondCompletion.product
      = some { sampleProduct with name := "Record Two" } ∧
    afterStaleCompletion.product
      = some { sampleProduct with name := "Record One" } ∧
    ({ sampleProduct with name := "Record One" } : ProductData)
      ≠ { sampleProduct with name := "Record Two" } := by decide

end ShopeeExtractor
